import Mathlib

/-!
# Verification of the conversational-AI assistant repository

Shallow embedding of the two code areas the claims are about:

* the Streamlit chat front end
  (`bedrock_agent_implementation/streamlit_frontend/home.py`): session-id
  generation, DynamoDB persistence, the chat-turn handler `submit_question`,
  startup environment checks, and the input widgets;
* the CDK provisioning stack
  (`bedrock_agent_implementation/stacks/bedrock_agent_stack.py`): the custom
  resources (SDK calls) it constructs and the dependency edges declared
  between them.

External effects (the random generator, the agent invocation, the DynamoDB
put, environment lookup) are passed in as explicit parameters, so each Python
function becomes a pure Lean function of its inputs and the outcome of the
effects it performs.
-/

/- ## Front end: session-id generation (home.py, lines 167-176)

`random.choice` over a non-empty sequence is modelled by indexing with an
arbitrary natural number reduced modulo the sequence length; quantifying over
the number stream covers every possible sequence of random choices. -/

def string_digits : List Char :=
  ['0', '1', '2', '3', '4', '5', '6', '7', '8', '9']

def ascii_lowercase : List Char :=
  ['a', 'b', 'c', 'd', 'e', 'f', 'g', 'h', 'i', 'j', 'k', 'l', 'm',
   'n', 'o', 'p', 'q', 'r', 's', 't', 'u', 'v', 'w', 'x', 'y', 'z']

def random_choice (seq : List Char) (r : Nat) : Char :=
  seq.getD (r % seq.length) ' '

/-- `session_generator` (home.py 167-176): draws 4 digits and 3 lowercase
letters from the RNG and builds the f-string
`digits[0] chars[0] digits[1:3] chars[1] "-" digits[3] chars[2]`. -/
def session_generator (rng : Nat → Nat) : String :=
  let digits : List Char :=
    [random_choice string_digits (rng 0), random_choice string_digits (rng 1),
     random_choice string_digits (rng 2), random_choice string_digits (rng 3)]
  let chars : List Char :=
    [random_choice ascii_lowercase (rng 4), random_choice ascii_lowercase (rng 5),
     random_choice ascii_lowercase (rng 6)]
  String.mk [digits.getD 0 ' ', chars.getD 0 ' ', digits.getD 1 ' ',
             digits.getD 2 ' ', chars.getD 1 ' ', '-',
             digits.getD 3 ' ', chars.getD 2 ' ']

/- ## Front end: conversation state and streamed responses -/

/-- One entry of `st.session_state.conversation`: a dict with either a
`user` or an `assistant` key. -/
inductive Turn where
  | user (text : String)
  | assistant (text : String)
  deriving DecidableEq, Repr

def Turn.isUser : Turn → Bool
  | .user _ => true
  | .assistant _ => false

def Turn.isAssistant : Turn → Bool
  | .user _ => false
  | .assistant _ => true

/-- One retrieved reference inside a knowledge-base lookup output. -/
structure KbReference where
  contentText : String
  s3Uri : String
  deriving DecidableEq, Repr

/-- The `orchestrationTrace` payload of a stream event; an absent or empty
(falsy) trace dict is `none` at the `StreamEvent` level. -/
structure OrchestrationTrace where
  kbLookupInput : Option String
  retrievedReferences : List KbReference
  deriving DecidableEq, Repr

/-- One event of the `completion` stream of `invoke_agent`: it may carry a
trace and/or a `chunk` with (already decoded) answer bytes. -/
structure StreamEvent where
  trace : Option OrchestrationTrace
  chunk : Option String
  deriving DecidableEq, Repr

/-- `format_retrieved_references` (home.py 121-132): the `return` sits inside
the `for` loop, so only the first reference is formatted; on an empty list
the function falls off the end and returns `None`. -/
def format_retrieved_references (references : List KbReference) : Option String :=
  match references with
  | [] => none
  | r :: _ =>
      some ("Reference Information:\n" ++ "Content: " ++ r.contentText ++ "\n"
            ++ "S3 URI: " ++ r.s3Uri ++ "\n")

/-- `process_stream` (home.py 134-165): with a truthy trace whose
`retrievedReferences` is non-empty, the formatted references are returned;
otherwise the decoded `chunk` is returned if present; otherwise `None`. -/
def process_stream (stream : StreamEvent) : Option String :=
  match stream.trace with
  | some t =>
      if t.retrievedReferences ≠ [] then
        format_retrieved_references t.retrievedReferences
      else
        stream.chunk
  | none => stream.chunk

/-- The `answer += process_stream(stream)` loop of `submit_question`
(home.py 257-259).  When `process_stream` returns `None`, the `+=` raises a
`TypeError`, aborting the loop: modelled by the `Option` monad. -/
def accumulate_answer (events : List StreamEvent) : Option String :=
  events.foldlM (fun answer ev => (process_stream ev).map (fun t => answer ++ t)) ""

/- ## Front end: DynamoDB persistence (home.py 178-201) -/

/-- A DynamoDB attribute value as written by the front end.  `null` models
Python `None` (the default `feedback`). -/
inductive DbValue where
  | str (s : String)
  | conv (c : List Turn)
  | fbMap (f : List (Nat × String))
  | null
  deriving DecidableEq, Repr

/-- The `item` dict built by `save_to_dynamodb` (home.py 180-187), with its
keys in source order. -/
def dynamodb_item (uuid username session_id : String) (conversation : List Turn)
    (feedback : Option (List (Nat × String))) (timestamp : String) :
    List (String × DbValue) :=
  [("id", DbValue.str uuid),
   ("username", DbValue.str username),
   ("session_id", DbValue.str session_id),
   ("conversation", DbValue.conv conversation),
   ("timestamp", DbValue.str timestamp),
   ("feedback", match feedback with
                | none => DbValue.null
                | some f => DbValue.fbMap f)]

/-- Outcome of the `table.put_item` call, supplied as an input: success, a
botocore `ClientError` with an error code and message, or any other
exception. -/
inductive PutOutcome where
  | success
  | clientError (code msg : String)
  | otherError (msg : String)
  deriving DecidableEq, Repr

/-- Observable result of `save_to_dynamodb`: its return value, the item it
passed to `put_item`, the `st.success` banners shown, and the log lines. -/
structure SaveResult where
  retValue : Bool
  attemptedItem : List (String × DbValue)
  successMessages : List String
  logs : List String
  deriving DecidableEq, Repr

/-- `save_to_dynamodb` (home.py 178-201): builds the item, attempts
`put_item`, catches `ClientError` (with a dedicated log for
`AccessDeniedException`) and any other exception, and reaches `return True`
on every path. -/
def save_to_dynamodb (username session_id : String) (conversation : List Turn)
    (feedback : Option (List (Nat × String))) (uuid timestamp : String)
    (put : PutOutcome) : SaveResult :=
  let item := dynamodb_item uuid username session_id conversation feedback timestamp
  match put with
  | .success =>
      { retValue := true, attemptedItem := item,
        successMessages := ["Conversation saved successfully!"], logs := [] }
  | .clientError code msg =>
      if code = "AccessDeniedException" then
        { retValue := true, attemptedItem := item, successMessages := [],
          logs := ["AccessDeniedException: " ++ msg,
                   "Unable to save conversation due to permissions. Please check DynamoDB access."] }
      else
        { retValue := true, attemptedItem := item, successMessages := [],
          logs := ["Unexpected error when saving to DynamoDB: " ++ code ++ " - " ++ msg] }
  | .otherError msg =>
      { retValue := true, attemptedItem := item, successMessages := [],
        logs := ["Unexpected error: " ++ msg] }

/- ## Front end: the chat-turn handler (home.py 240-272) -/

/-- Per-session Streamlit state used by `submit_question` and
`render_input`. -/
structure SessionState where
  conversation : List Turn
  session_id : String
  username : String
  user_input : String
  processing : Bool
  deriving DecidableEq, Repr

/-- Outcome of the `bedrock_client.invoke_agent` call: the `completion`
event stream, or an exception. -/
inductive InvokeOutcome where
  | completion (events : List StreamEvent)
  | failure (msg : String)
  deriving DecidableEq, Repr

/-- Observable result of one run of `submit_question`: the updated session
state, the `st.error` banners, the `st.success` banners, the items passed to
`put_item`, and the log lines. -/
structure SubmitResult where
  state : SessionState
  uiErrors : List String
  successMessages : List String
  putAttempts : List (List (String × DbValue))
  logs : List String
  deriving DecidableEq, Repr

/-- `submit_question` (home.py 240-272).  With empty input nothing happens.
Otherwise the user turn is appended first; an exception from `invoke_agent`
or from the accumulation loop lands in the `except` branch (generic
`st.error`, full error logged) with the user turn already appended; on
success the assistant turn is appended, `save_to_dynamodb` is called with
the grown conversation (its own handlers swallow persistence errors), and
the input box is cleared.  The `finally` block resets `processing`. -/
def submit_question (s : SessionState) (invoke : InvokeOutcome)
    (put : PutOutcome) (uuid timestamp : String) : SubmitResult :=
  if s.user_input = "" then
    { state := s, uiErrors := [], successMessages := [], putAttempts := [], logs := [] }
  else
    let conv1 := s.conversation ++ [Turn.user s.user_input]
    match invoke with
    | .failure msg =>
        { state := { s with conversation := conv1, processing := false },
          uiErrors := ["An error occurred. Please try again later."],
          successMessages := [], putAttempts := [],
          logs := ["Exception when calling Bedrock Agent: " ++ msg] }
    | .completion events =>
        match accumulate_answer events with
        | none =>
            { state := { s with conversation := conv1, processing := false },
              uiErrors := ["An error occurred. Please try again later."],
              successMessages := [], putAttempts := [],
              logs := ["Exception when calling Bedrock Agent: TypeError"] }
        | some answer =>
            let conv2 := conv1 ++ [Turn.assistant answer]
            let sv := save_to_dynamodb s.username s.session_id conv2 none uuid timestamp put
            { state := { s with conversation := conv2, user_input := "", processing := false },
              uiErrors := [], successMessages := sv.successMessages,
              putAttempts := [sv.attemptedItem], logs := sv.logs }

/-- `render_chat` (home.py 306-318) renders every turn of the conversation
list in order; modelled as the visible text lines. -/
def render_chat (conversation : List Turn) : List String :=
  conversation.map (fun t =>
    match t with
    | .user u => "You: " ++ u
    | .assistant a => "Assistant: " ++ a)

/- ## Front end: startup environment checks (home.py 66-76) -/

/-- Python truthiness of `os.getenv`'s result: `None` and `""` are falsy. -/
def python_truthy : Option String → Bool
  | none => false
  | some s => !s.isEmpty

/-- The chat-history table name is hardcoded at home.py line 76
(`dynamodb.Table('ChatHistory')`); it is not read from the environment. -/
def chat_history_table_name : String := "ChatHistory"

/-- Result of the module-level startup code: whether `st.stop()` halted the
script, the `st.error` banners, and how many agent invocations happen. -/
structure StartupResult where
  halted : Bool
  uiErrors : List String
  agentInvocations : Nat
  deriving DecidableEq, Repr

/-- home.py 66-72: read `BEDROCK_AGENT_ALIAS` and `BEDROCK_AGENT_ID`; if
either is falsy, show an error and `st.stop()`, so none of the later code
(agent invocations included) runs.  `laterInvocations` stands for however
many invocations the rest of the script would perform. -/
def frontend_startup (env : String → Option String) (laterInvocations : Nat) :
    StartupResult :=
  if !python_truthy (env "BEDROCK_AGENT_ALIAS")
      || !python_truthy (env "BEDROCK_AGENT_ID") then
    { halted := true,
      uiErrors := ["BEDROCK_AGENT_ALIAS or BEDROCK_AGENT_ID environment variables are not set."],
      agentInvocations := 0 }
  else
    { halted := false, uiErrors := [], agentInvocations := laterInvocations }

/- ## Front end: input widgets (home.py 320-333) -/

/-- A rendered `st.button`: its key, whether an `on_click` callback is
wired, and its `disabled` flag (Streamlit's default is `False`; the source
passes no `disabled` argument to any widget). -/
structure ButtonSpec where
  label : String
  key : String
  hasOnClick : Bool
  disabled : Bool
  deriving DecidableEq, Repr

/-- `render_input` (home.py 320-333): a text area plus three buttons, none
of which consults `s.processing` (the function's output does not depend on
the state at all). -/
def render_input (_s : SessionState) : List ButtonSpec :=
  [{ label := "Submit", key := "submit_button", hasOnClick := true, disabled := false },
   { label := "Clear Input", key := "clear_input_button", hasOnClick := true, disabled := false },
   { label := "Clear History", key := "clear_history_button", hasOnClick := false, disabled := false }]

/-- The Submit button among a list of rendered buttons. -/
def submit_button_of (buttons : List ButtonSpec) : ButtonSpec :=
  (buttons.filter (fun b => b.key = "submit_button")).headD
    { label := "", key := "", hasOnClick := false, disabled := true }

/- ## Provisioning stack (bedrock_agent_stack.py)

The stack builds CDK custom resources; each carries an on-create SDK call,
parameters (literals or references to another resource's response fields),
and explicit `add_dependency` edges.  Deployment executes resources in an
order that respects both the explicit edges and the implicit edges induced
by response-field references; a resource whose dependency was not created
is not created either.

The Python module itself is mangled: it contains two identical definitions
of `create_bedrock_agent` (the second, lines 244-295, shadows the first and
returns at line 292 right after constructing the agent and alias resources),
the whole orchestration block at lines 296-758 is unreachable code after
that `return`, and the stray `except` clauses at lines 759-764 make the
module fail to parse at all (SyntaxError).  Both facts are modelled below:
`create_bedrock_agent_nodes` is what the executed method body constructs
before returning, and `dead_orchestration` is the resource graph declared by
the unreachable block. -/

/-- The on-create call kind of a provisioned resource. -/
inductive StepKind where
  | CreateAgent
  | CreateAgentAlias
  | CreateKnowledgeBase
  | CreateDataSource
  | StartIngestionJob
  | AssociateAgentKnowledgeBase
  | CreateAgentActionGroup
  | PrepareAgent
  | CreateVectorIndex
  | CreateFunction
  deriving DecidableEq, Repr

/-- A parameter value: a literal, or a reference to another resource's
response field (`get_response_field` / attribute tokens, which also induce a
creation-order dependency). -/
inductive PValue where
  | lit (s : String)
  | ref (cid field : String)
  deriving DecidableEq, Repr

/-- One constructed resource: construct id, on-create call, parameters, and
the construct ids it explicitly depends on (`add_dependency`). -/
structure ResourceNode where
  cid : String
  step : StepKind
  params : List (String × PValue)
  deps : List String
  deriving DecidableEq, Repr

/-- What the executed `create_bedrock_agent` (second definition, lines
244-295; it shadows the identical first definition at 130-180) constructs
before its `return` at line 292: the agent resource and the alias resource,
nothing else.  No PrepareAgent, action-group, or knowledge-base resource is
ever constructed on this path. -/
def create_bedrock_agent_nodes : List ResourceNode :=
  [{ cid := "BedrockAgent", step := StepKind.CreateAgent,
     params := [("agentName", PValue.lit "IotOpsAgent"),
                ("agentResourceRoleArn", PValue.ref "BedrockAgentRole" "role_arn"),
                ("foundationModel", PValue.lit "anthropic.claude-3-haiku-20240307-v1:0")],
     deps := [] },
   { cid := "BedrockAgentAlias", step := StepKind.CreateAgentAlias,
     params := [("agentId", PValue.ref "BedrockAgent" "agentId"),
                ("agentAliasName", PValue.lit "UAT")],
     deps := [] }]

/-- The on-create calls of the executed path, in construction order. -/
def executed_steps : List StepKind :=
  create_bedrock_agent_nodes.map ResourceNode.step

/-- The resource graph declared by the unreachable orchestration block
(lines 296-758), kept with the construct ids, key parameters, and every
`add_dependency` edge as written in the source.  The three policy
dependency names at lines 570-572 are unbound Python names in that scope and
are kept verbatim.  ("BedrockKowledgeBase" is the construct id spelled in
the source.) -/
def dead_orchestration : List ResourceNode :=
  [{ cid := "IndexOpenSearch", step := StepKind.CreateVectorIndex,
     params := [("oss_endpoint", PValue.ref "OpssSearchCollection" "attr_collection_endpoint")],
     deps := ["OpssDataAccessPolicy"] },
   { cid := "BedrockKowledgeBase", step := StepKind.CreateKnowledgeBase,
     params := [("name", PValue.lit "IotDeviceSpecs"),
                ("roleArn", PValue.ref "BedrockKbRole" "role_arn"),
                ("collectionArn", PValue.ref "OpssSearchCollection" "attr_arn"),
                ("vectorIndexName", PValue.lit "bedrock-agent-vector"),
                ("textField", PValue.lit "AMAZON_BEDROCK_TEXT_CHUNK"),
                ("metadataField", PValue.lit "AMAZON_BEDROCK_METADATA"),
                ("vectorField", PValue.lit "bedrock-agent-embeddings")],
     deps := ["IndexOpenSearch", "BedrockKbRole"] },
   { cid := "BedrockDataSource", step := StepKind.CreateDataSource,
     params := [("knowledgeBaseId", PValue.ref "BedrockKowledgeBase" "knowledgeBase.knowledgeBaseId"),
                ("name", PValue.lit "IotDeviceSpecsS3DataSource"),
                ("bucketArn", PValue.ref "DataBucket" "bucket_arn")],
     deps := ["BedrockKowledgeBase"] },
   { cid := "BedrockIngestion", step := StepKind.StartIngestionJob,
     params := [("knowledgeBaseId", PValue.ref "BedrockKowledgeBase" "knowledgeBase.knowledgeBaseId"),
                ("dataSourceId", PValue.ref "BedrockDataSource" "dataSource.dataSourceId")],
     deps := ["BedrockDataSource"] },
   { cid := "BedrockAgent", step := StepKind.CreateAgent,
     params := [("agentName", PValue.lit "IotOpsAgent"),
                ("agentResourceRoleArn", PValue.ref "BedrockAgentRole" "role_arn"),
                ("foundationModel", PValue.lit "anthropic.claude-3-haiku-20240307-v1:0")],
     deps := ["BedrockAgentRole", "bedrock_agent_lambda_policy",
              "bedrock_agent_s3_policy", "bedrock_agent_model_policy",
              "BedrockKowledgeBase"] },
   { cid := "BedrockAssociateKb", step := StepKind.AssociateAgentKnowledgeBase,
     params := [("agentId", PValue.ref "BedrockAgent" "agentId"),
                ("agentVersion", PValue.lit "DRAFT"),
                ("knowledgeBaseId", PValue.ref "BedrockKowledgeBase" "knowledgeBase.knowledgeBaseId")],
     deps := ["BedrockDataSource", "BedrockAgent"] },
   { cid := "DeviceMetricsLambda", step := StepKind.CreateFunction,
     params := [("handler", PValue.lit "lambda_function.lambda_handler")],
     deps := [] },
   { cid := "DeviceActionLambda", step := StepKind.CreateFunction,
     params := [("handler", PValue.lit "lambda_function.lambda_handler")],
     deps := [] },
   { cid := "BedrockAgentActionGroup1", step := StepKind.CreateAgentActionGroup,
     params := [("agentId", PValue.ref "BedrockAgent" "agentId"),
                ("agentVersion", PValue.lit "DRAFT"),
                ("actionGroupExecutor.lambda", PValue.ref "DeviceMetricsLambda" "function_arn"),
                ("actionGroupName", PValue.lit "CheckDeviceMetricsActionGroup"),
                ("apiSchema.s3.s3ObjectKey", PValue.lit "open_api_schema/check_device_metrics.json")],
     deps := ["BedrockAssociateKb", "DeviceMetricsLambda"] },
   { cid := "BedrockAgentActionGroup2", step := StepKind.CreateAgentActionGroup,
     params := [("agentId", PValue.ref "BedrockAgent" "agentId"),
                ("agentVersion", PValue.lit "DRAFT"),
                ("actionGroupExecutor.lambda", PValue.ref "DeviceActionLambda" "function_arn"),
                ("actionGroupName", PValue.lit "ActionOnDeviceActionGroup"),
                ("apiSchema.s3.s3ObjectKey", PValue.lit "open_api_schema/action_on_device.json")],
     deps := ["BedrockAssociateKb", "DeviceActionLambda"] },
   { cid := "BedrockPrepareAgent", step := StepKind.PrepareAgent,
     params := [("agentId", PValue.ref "BedrockAgent" "agentId")],
     deps := ["BedrockAgentActionGroup1", "BedrockAgentActionGroup2"] },
   { cid := "BedrockAgentAlias", step := StepKind.CreateAgentAlias,
     params := [("agentId", PValue.ref "BedrockAgent" "agentId"),
                ("agentAliasName", PValue.lit "UAT")],
     deps := ["BedrockPrepareAgent"] }]

/-- Look a node up by construct id. -/
def node_of (g : List ResourceNode) (cid : String) : ResourceNode :=
  (g.filter (fun n => n.cid = cid)).headD
    { cid := "", step := StepKind.CreateAgent, params := [], deps := [] }

/-- The construct ids a node's parameters reference (implicit CDK
dependencies through response-field tokens). -/
def param_refs (n : ResourceNode) : List String :=
  n.params.filterMap (fun kv =>
    match kv.2 with
    | PValue.lit _ => none
    | PValue.ref c _ => some c)

/-- `order` is a possible (complete or failure-truncated) creation order for
graph `g`: created resources are listed at most once, and every created
resource comes after each of its explicit dependencies and after each
resource its parameters reference.  A resource whose dependency is absent
(failed) must itself be absent, which this predicate enforces by requiring
the dependency to be present and earlier. -/
def exec_respects (g : List ResourceNode) (order : List String) : Prop :=
  order.Nodup ∧
  ∀ n ∈ g, n.cid ∈ order →
    (∀ d ∈ n.deps, d ∈ order ∧ order.indexOf d < order.indexOf n.cid) ∧
    (∀ c ∈ param_refs n, c ∈ order ∧ order.indexOf c < order.indexOf n.cid)

instance (g : List ResourceNode) (order : List String) :
    Decidable (exec_respects g order) := by
  unfold exec_respects
  infer_instance

/- ## Helper lemmas -/

theorem random_choice_mem (seq : List Char) (r : Nat) (h : seq ≠ []) :
    random_choice seq r ∈ seq := by
  have hpos : 0 < seq.length := List.length_pos.mpr h
  have hlt : r % seq.length < seq.length := Nat.mod_lt _ hpos
  unfold random_choice
  rw [List.getD_eq_getElem _ _ hlt]
  exact List.getElem_mem hlt

/- ## Claims about the session-id generator -/

/-- Claim C2 (counterexample): at the all-zero choice stream the generated
session id is the 8-character string "0a00a-0a", not a 7-character string as
the claim states. -/
theorem session_id_eight_chars_not_seven :
    session_generator (fun _ => 0) = "0a00a-0a"
    ∧ (session_generator (fun _ => 0)).length = 8
    ∧ ¬(session_generator (fun _ => 0)).length = 7 := by decide

/-- Claim C2 (amended): for every sequence of random choices,
`session_generator` returns an 8-character string whose characters are, in
order: digit, lowercase letter, digit, digit, lowercase letter, dash,
digit, lowercase letter. -/
theorem session_generator_format (rng : Nat → Nat) :
    (session_generator rng).length = 8
    ∧ (session_generator rng).data.getD 0 ' ' ∈ string_digits
    ∧ (session_generator rng).data.getD 1 ' ' ∈ ascii_lowercase
    ∧ (session_generator rng).data.getD 2 ' ' ∈ string_digits
    ∧ (session_generator rng).data.getD 3 ' ' ∈ string_digits
    ∧ (session_generator rng).data.getD 4 ' ' ∈ ascii_lowercase
    ∧ (session_generator rng).data.getD 5 ' ' = '-'
    ∧ (session_generator rng).data.getD 6 ' ' ∈ string_digits
    ∧ (session_generator rng).data.getD 7 ' ' ∈ ascii_lowercase := by
  refine ⟨rfl, ?_, ?_, ?_, ?_, ?_, rfl, ?_, ?_⟩ <;>
    exact random_choice_mem _ _ (by decide)

/- ## Claims about DynamoDB persistence -/

/-- Claim C8 (counterexample): the item written by the front end contains a
`username` field, which is not among the five fields the claim allows. -/
theorem dynamodb_item_has_username_field :
    "username" ∈ (dynamodb_item "u0" "alice" "1a23b-4c" [] none "t0").map Prod.fst
    ∧ "username" ∉ ["id", "session_id", "conversation", "timestamp", "feedback"] := by
  decide

/-- Claim C8 (amended): every record the front end writes to the history
table has exactly the fields `id`, `username`, `session_id`,
`conversation`, `timestamp`, `feedback` (in that order), where `feedback`
is `None` unless feedback was given, and no other fields are present. -/
theorem dynamodb_item_keys (uuid username session_id : String)
    (conversation : List Turn) (feedback : Option (List (Nat × String)))
    (timestamp : String) :
    (dynamodb_item uuid username session_id conversation feedback timestamp).map Prod.fst
      = ["id", "username", "session_id", "conversation", "timestamp", "feedback"] := rfl

/-- Claim C10: `save_to_dynamodb` returns `True` on every path — success,
`ClientError` of any code, and any other exception from `put_item` — so its
return value never indicates whether the write succeeded. -/
theorem save_to_dynamodb_always_returns_true
    (username session_id : String) (conversation : List Turn)
    (feedback : Option (List (Nat × String))) (uuid timestamp : String)
    (put : PutOutcome) :
    (save_to_dynamodb username session_id conversation feedback uuid timestamp put).retValue
      = true := by
  cases put with
  | success => rfl
  | clientError code msg =>
      by_cases hc : code = "AccessDeniedException" <;>
        simp [save_to_dynamodb, hc]
  | otherError msg => rfl

/- ## Claims about the provisioning stack -/

/-- Claim C1: the provisioning code that actually executes (the second
`create_bedrock_agent` definition, which shadows the first and returns at
line 292) constructs a CreateAgentAlias resource but never a PrepareAgent
resource, so the alias is not created after prepare — prepare does not
exist on the executed path at all. -/
theorem executed_alias_without_prepare :
    StepKind.CreateAgentAlias ∈ executed_steps
    ∧ StepKind.PrepareAgent ∉ executed_steps := by decide

/-- Claim C3: on the executed provisioning path none of the knowledge-base
orchestration steps is constructed — no vector index, no
CreateKnowledgeBase, no CreateDataSource, no StartIngestionJob; the only
steps are CreateAgent and CreateAgentAlias. -/
theorem executed_no_knowledge_base_chain :
    executed_steps = [StepKind.CreateAgent, StepKind.CreateAgentAlias]
    ∧ StepKind.CreateVectorIndex ∉ executed_steps
    ∧ StepKind.CreateKnowledgeBase ∉ executed_steps
    ∧ StepKind.CreateDataSource ∉ executed_steps
    ∧ StepKind.StartIngestionJob ∉ executed_steps := by decide

/-- Claim C4: on the executed provisioning path no CreateAgentActionGroup
resource is constructed (and no PrepareAgent either), although an alias is
created — the action-group creation the claim describes never occurs. -/
theorem executed_no_action_groups :
    StepKind.CreateAgentActionGroup ∉ executed_steps
    ∧ StepKind.PrepareAgent ∉ executed_steps
    ∧ StepKind.CreateAgentAlias ∈ executed_steps := by decide

/- ## Intended ordering declared by the unreachable orchestration block

These theorems show that the dependency edges written in the dead code
(lines 296-758) do encode the orderings the specification describes, which
is why the mismatch above is classified as a defect of the code rather than
of the specification. -/

/-- In the dead orchestration graph, any dependency-respecting creation
order that creates the alias has created prepare strictly earlier. -/
theorem deadcode_alias_after_prepare (order : List String)
    (hresp : exec_respects dead_orchestration order)
    (halias : "BedrockAgentAlias" ∈ order) :
    "BedrockPrepareAgent" ∈ order
    ∧ order.indexOf "BedrockPrepareAgent" < order.indexOf "BedrockAgentAlias" := by
  have h := hresp.2 (node_of dead_orchestration "BedrockAgentAlias")
    (by decide) halias
  exact h.1 "BedrockPrepareAgent" (by decide)

/-- In the dead orchestration graph, the knowledge-base chain is linear:
creating the ingestion job requires the data source, the knowledge base and
the vector index, each strictly earlier than its successor. -/
theorem deadcode_kb_chain_linear (order : List String)
    (hresp : exec_respects dead_orchestration order)
    (hing : "BedrockIngestion" ∈ order) :
    "BedrockDataSource" ∈ order
    ∧ order.indexOf "BedrockDataSource" < order.indexOf "BedrockIngestion"
    ∧ "BedrockKowledgeBase" ∈ order
    ∧ order.indexOf "BedrockKowledgeBase" < order.indexOf "BedrockDataSource"
    ∧ "IndexOpenSearch" ∈ order
    ∧ order.indexOf "IndexOpenSearch" < order.indexOf "BedrockKowledgeBase" := by
  have hi := hresp.2 (node_of dead_orchestration "BedrockIngestion") (by decide) hing
  have hds := hi.1 "BedrockDataSource" (by decide)
  have hd := hresp.2 (node_of dead_orchestration "BedrockDataSource") (by decide) hds.1
  have hkb := hd.1 "BedrockKowledgeBase" (by decide)
  have hk := hresp.2 (node_of dead_orchestration "BedrockKowledgeBase") (by decide) hkb.1
  have hix := hk.1 "IndexOpenSearch" (by decide)
  exact ⟨hds.1, hds.2, hkb.1, hkb.2, hix.1, hix.2⟩

/-- In the dead orchestration graph, preparing the agent requires both
action groups strictly earlier, and each action group requires its backing
function and the agent resource strictly earlier. -/
theorem deadcode_action_groups_before_prepare (order : List String)
    (hresp : exec_respects dead_orchestration order)
    (hprep : "BedrockPrepareAgent" ∈ order) :
    "BedrockAgentActionGroup1" ∈ order
    ∧ order.indexOf "BedrockAgentActionGroup1" < order.indexOf "BedrockPrepareAgent"
    ∧ "BedrockAgentActionGroup2" ∈ order
    ∧ order.indexOf "BedrockAgentActionGroup2" < order.indexOf "BedrockPrepareAgent"
    ∧ "DeviceMetricsLambda" ∈ order
    ∧ order.indexOf "DeviceMetricsLambda" < order.indexOf "BedrockAgentActionGroup1"
    ∧ "BedrockAgent" ∈ order
    ∧ order.indexOf "BedrockAgent" < order.indexOf "BedrockAgentActionGroup1" := by
  have hp := hresp.2 (node_of dead_orchestration "BedrockPrepareAgent") (by decide) hprep
  have hg1 := hp.1 "BedrockAgentActionGroup1" (by decide)
  have hg2 := hp.1 "BedrockAgentActionGroup2" (by decide)
  have ha := hresp.2 (node_of dead_orchestration "BedrockAgentActionGroup1") (by decide) hg1.1
  have hl := ha.1 "DeviceMetricsLambda" (by decide)
  have hag := ha.2 "BedrockAgent" (by decide)
  exact ⟨hg1.1, hg1.2, hg2.1, hg2.2, hl.1, hl.2, hag.1, hag.2⟩

/-- A concrete complete creation order, showing the declared dead-code graph
is satisfiable (acyclic). -/
def demo_order : List String :=
  ["OpssSearchCollection", "OpssDataAccessPolicy", "BedrockKbRole",
   "BedrockAgentRole", "bedrock_agent_lambda_policy", "bedrock_agent_s3_policy",
   "bedrock_agent_model_policy", "DataBucket", "IndexOpenSearch",
   "BedrockKowledgeBase", "BedrockDataSource", "BedrockIngestion",
   "BedrockAgent", "BedrockAssociateKb", "DeviceMetricsLambda",
   "DeviceActionLambda", "BedrockAgentActionGroup1", "BedrockAgentActionGroup2",
   "BedrockPrepareAgent", "BedrockAgentAlias"]

theorem deadcode_order_satisfiable : exec_respects dead_orchestration demo_order := by
  decide

/- ## Claims about the chat-turn handler -/

/-- Claim C5: when the agent invocation succeeds but persisting the turn
fails (any `put_item` failure, e.g. `AccessDeniedException`), the failure is
caught and logged, no error banner is shown, the two turns appended to the
in-memory conversation remain there and are rendered, no success banner is
shown (the history was not saved), and the resulting conversation is the
same as it would have been had the write succeeded. -/
theorem persistence_failure_degrades_gracefully
    (s : SessionState) (events : List StreamEvent) (answer : String)
    (put : PutOutcome) (uuid timestamp : String)
    (hinput : s.user_input ≠ "")
    (hanswer : accumulate_answer events = some answer)
    (hfail : put ≠ PutOutcome.success) :
    (submit_question s (InvokeOutcome.completion events) put uuid timestamp).state.conversation
        = s.conversation ++ [Turn.user s.user_input, Turn.assistant answer]
    ∧ (submit_question s (InvokeOutcome.completion events) put uuid timestamp).uiErrors = []
    ∧ (submit_question s (InvokeOutcome.completion events) put uuid timestamp).successMessages = []
    ∧ (submit_question s (InvokeOutcome.completion events) put uuid timestamp).logs ≠ []
    ∧ render_chat (submit_question s (InvokeOutcome.completion events) put uuid timestamp).state.conversation
        = render_chat s.conversation ++ ["You: " ++ s.user_input, "Assistant: " ++ answer]
    ∧ (submit_question s (InvokeOutcome.completion events) put uuid timestamp).state.conversation
        = (submit_question s (InvokeOutcome.completion events) PutOutcome.success uuid timestamp).state.conversation := by
  cases put with
  | success => exact absurd rfl hfail
  | clientError code msg =>
      by_cases hc : code = "AccessDeniedException" <;>
        simp [submit_question, hinput, hanswer, save_to_dynamodb, render_chat, hc]
  | otherError msg =>
      simp [submit_question, hinput, hanswer, save_to_dynamodb, render_chat]

def example_state : SessionState :=
  { conversation := [], session_id := "1a23b-4c", username := "alice",
    user_input := "hello", processing := false }

def example_events : List StreamEvent :=
  [{ trace := none, chunk := some "ans" }]

/-- Witness for claim C5 at a concrete state, stream and simulated
`AccessDeniedException`. -/
theorem persistence_failure_degrades_gracefully_witness :
    (submit_question example_state (InvokeOutcome.completion example_events)
        (PutOutcome.clientError "AccessDeniedException" "denied") "u0" "t0").state.conversation
        = example_state.conversation ++ [Turn.user "hello", Turn.assistant "ans"]
    ∧ (submit_question example_state (InvokeOutcome.completion example_events)
        (PutOutcome.clientError "AccessDeniedException" "denied") "u0" "t0").uiErrors = []
    ∧ (submit_question example_state (InvokeOutcome.completion example_events)
        (PutOutcome.clientError "AccessDeniedException" "denied") "u0" "t0").successMessages = []
    ∧ (submit_question example_state (InvokeOutcome.completion example_events)
        (PutOutcome.clientError "AccessDeniedException" "denied") "u0" "t0").logs ≠ []
    ∧ render_chat (submit_question example_state (InvokeOutcome.completion example_events)
        (PutOutcome.clientError "AccessDeniedException" "denied") "u0" "t0").state.conversation
        = render_chat example_state.conversation ++ ["You: " ++ "hello", "Assistant: " ++ "ans"]
    ∧ (submit_question example_state (InvokeOutcome.completion example_events)
        (PutOutcome.clientError "AccessDeniedException" "denied") "u0" "t0").state.conversation
        = (submit_question example_state (InvokeOutcome.completion example_events)
            PutOutcome.success "u0" "t0").state.conversation :=
  persistence_failure_degrades_gracefully example_state example_events "ans"
    (PutOutcome.clientError "AccessDeniedException" "denied") "u0" "t0"
    (by decide) (by decide) (by decide)

/-- Claim C7: on a successful invocation whose streamed answer is non-empty,
the conversation grows by exactly one user entry and exactly one assistant
entry, and exactly one persistence attempt is made, whose item carries the
current session's id. -/
theorem successful_turn_grows_and_persists
    (s : SessionState) (events : List StreamEvent) (answer : String)
    (put : PutOutcome) (uuid timestamp : String)
    (hinput : s.user_input ≠ "")
    (hanswer : accumulate_answer events = some answer)
    (_hnonempty : answer ≠ "") :
    (submit_question s (InvokeOutcome.completion events) put uuid timestamp).state.conversation
        = s.conversation ++ [Turn.user s.user_input, Turn.assistant answer]
    ∧ ((submit_question s (InvokeOutcome.completion events) put uuid timestamp).state.conversation.filter
          Turn.isUser).length
        = (s.conversation.filter Turn.isUser).length + 1
    ∧ ((submit_question s (InvokeOutcome.completion events) put uuid timestamp).state.conversation.filter
          Turn.isAssistant).length
        = (s.conversation.filter Turn.isAssistant).length + 1
    ∧ (submit_question s (InvokeOutcome.completion events) put uuid timestamp).putAttempts
        = [dynamodb_item uuid s.username s.session_id
            (s.conversation ++ [Turn.user s.user_input, Turn.assistant answer]) none timestamp]
    ∧ ("session_id", DbValue.str s.session_id)
        ∈ (dynamodb_item uuid s.username s.session_id
            (s.conversation ++ [Turn.user s.user_input, Turn.assistant answer]) none timestamp) := by
  cases put with
  | success =>
      refine ⟨?_, ?_, ?_, ?_, ?_⟩ <;>
        simp [submit_question, hinput, hanswer, save_to_dynamodb, dynamodb_item,
              List.filter_append, Turn.isUser, Turn.isAssistant]
  | clientError code msg =>
      by_cases hc : code = "AccessDeniedException" <;>
      · refine ⟨?_, ?_, ?_, ?_, ?_⟩ <;>
          simp [submit_question, hinput, hanswer, save_to_dynamodb, dynamodb_item,
                List.filter_append, Turn.isUser, Turn.isAssistant, hc]
  | otherError msg =>
      refine ⟨?_, ?_, ?_, ?_, ?_⟩ <;>
        simp [submit_question, hinput, hanswer, save_to_dynamodb, dynamodb_item,
              List.filter_append, Turn.isUser, Turn.isAssistant]

/-- Witness for claim C7 at a concrete state and stream. -/
theorem successful_turn_grows_and_persists_witness :
    (submit_question example_state (InvokeOutcome.completion example_events)
        PutOutcome.success "u0" "t0").state.conversation
        = example_state.conversation ++ [Turn.user "hello", Turn.assistant "ans"]
    ∧ ((submit_question example_state (InvokeOutcome.completion example_events)
          PutOutcome.success "u0" "t0").state.conversation.filter Turn.isUser).length
        = (example_state.conversation.filter Turn.isUser).length + 1
    ∧ ((submit_question example_state (InvokeOutcome.completion example_events)
          PutOutcome.success "u0" "t0").state.conversation.filter Turn.isAssistant).length
        = (example_state.conversation.filter Turn.isAssistant).length + 1
    ∧ (submit_question example_state (InvokeOutcome.completion example_events)
          PutOutcome.success "u0" "t0").putAttempts
        = [dynamodb_item "u0" "alice" "1a23b-4c"
            (example_state.conversation ++ [Turn.user "hello", Turn.assistant "ans"]) none "t0"]
    ∧ ("session_id", DbValue.str "1a23b-4c")
        ∈ (dynamodb_item "u0" "alice" "1a23b-4c"
            (example_state.conversation ++ [Turn.user "hello", Turn.assistant "ans"]) none "t0") :=
  successful_turn_grows_and_persists example_state example_events "ans"
    PutOutcome.success "u0" "t0" (by decide) (by decide) (by decide)

/- ## Claims about startup and input rendering -/

/-- An environment with only the two agent variables set; every other
variable — any chat-history table name variable included — is absent. -/
def env_agent_only : String → Option String := fun v =>
  if v = "BEDROCK_AGENT_ALIAS" then some "ALIAS123"
  else if v = "BEDROCK_AGENT_ID" then some "AGENT123"
  else none

/-- Claim C6 (counterexample): with agent id and alias set but no
chat-history table name in the environment, startup does not halt and later
agent invocations do run — the table name is not a required environment
value (it is hardcoded as `ChatHistory`). -/
theorem startup_ignores_table_name_env :
    env_agent_only "CHAT_HISTORY_TABLE_NAME" = none
    ∧ (frontend_startup env_agent_only 1).halted = false
    ∧ (frontend_startup env_agent_only 1).uiErrors = []
    ∧ (frontend_startup env_agent_only 1).agentInvocations = 1
    ∧ chat_history_table_name = "ChatHistory" := by decide

/-- Claim C6 (amended): if the agent id or the agent alias environment value
is absent (or empty), startup halts with a user-visible configuration error
and performs zero agent invocations; the chat-history table name is
hardcoded, not read from the environment. -/
theorem missing_agent_env_halts_startup (env : String → Option String)
    (laterInvocations : Nat)
    (h : python_truthy (env "BEDROCK_AGENT_ALIAS") = false
        ∨ python_truthy (env "BEDROCK_AGENT_ID") = false) :
    (frontend_startup env laterInvocations).halted = true
    ∧ (frontend_startup env laterInvocations).uiErrors
        = ["BEDROCK_AGENT_ALIAS or BEDROCK_AGENT_ID environment variables are not set."]
    ∧ (frontend_startup env laterInvocations).agentInvocations = 0 := by
  rcases h with h | h <;> simp [frontend_startup, h]

/-- An environment with nothing set. -/
def env_empty : String → Option String := fun _ => none

/-- Witness for claim C6's amended theorem at the empty environment. -/
theorem missing_agent_env_halts_startup_witness :
    (frontend_startup env_empty 5).halted = true
    ∧ (frontend_startup env_empty 5).uiErrors
        = ["BEDROCK_AGENT_ALIAS or BEDROCK_AGENT_ID environment variables are not set."]
    ∧ (frontend_startup env_empty 5).agentInvocations = 0 :=
  missing_agent_env_halts_startup env_empty 5 (Or.inl (by decide))

/-- A session state whose processing flag is set (a request outstanding). -/
def processing_state : SessionState :=
  { conversation := [], session_id := "1a23b-4c", username := "alice",
    user_input := "question", processing := true }

/-- Claim C9 (counterexample): with the per-session processing flag set, the
Submit button is still rendered enabled with its callback wired — input
submission is not disabled while a request is outstanding. -/
theorem submit_enabled_while_processing :
    processing_state.processing = true
    ∧ (submit_button_of (render_input processing_state)).disabled = false
    ∧ (submit_button_of (render_input processing_state)).hasOnClick = true := by decide

/-- Claim C9 (amended): `render_input` never consults the per-session
processing flag — it renders the same widgets whatever the flag's value,
and the Submit button is always enabled; nothing in the front end disables
input submission while a request is outstanding. -/
theorem render_input_ignores_processing (s : SessionState) :
    render_input s = render_input { s with processing := true }
    ∧ render_input s = render_input { s with processing := false }
    ∧ (submit_button_of (render_input s)).disabled = false
    ∧ (submit_button_of (render_input s)).hasOnClick = true :=
  ⟨rfl, rfl, rfl, rfl⟩
